import Mathlib

/-!
Verification of the card-input validation and error-classification core of the
Vizion Gateway web SDK, shallowly embedded from the TypeScript sources
(`src/utils.ts`, `src/client.ts`, `src/errors.ts`, `src/services/payment-service.ts`,
`src/utils/errors.ts`, `src/components/payment-form.ts`).

Strings are modelled as Lean `String`; JavaScript's regex digit class is the
ASCII predicate `Char.isDigit`; the falsy-coalescing operator on strings
(`x || d`, which falls back on both `undefined` and the empty string) is the
explicit function `jsOrString`.
-/

/-- JavaScript string coalescing `x || d`: falls back to `d` when `x` is
absent (`none`) or the empty string (both are falsy in JavaScript). -/
def jsOrString : Option String → String → String
  | none, d => d
  | some s, d => if s = "" then d else s

/-- Digit normalization, as performed by `cardNumber.replace(/\D/g, '')` in
`src/utils.ts` (`validateCardNumber`, `detectCardType`) and
`src/components/payment-form.ts` (`formatCardNumber`): every character that is
not an ASCII decimal digit is removed. -/
def normalizeDigits (s : String) : String :=
  String.mk (s.data.filter Char.isDigit)

/-- Whitespace stripping, as performed by `value.replace(/\s/g, '')` in the
submit handlers and the blur validator of `src/components/payment-form.ts`. -/
def jsStripSpaces (s : String) : String :=
  String.mk (s.data.filter (fun c => !c.isWhitespace))

/-- Numeric value of a digit character, as produced by
`parseInt(digits.charAt(i), 10)` on a digit. -/
def charDigitVal (c : Char) : Nat := c.toNat - 48

/-- Digit values of a digit string, most significant first. -/
def digitVals (s : String) : List Nat := s.data.map charDigitVal

/-- The Luhn loop of `src/utils.ts` `validateCardNumber`, lines 61 to 77:
the digits are traversed from right to left (the list argument is the reversed
digit list), `shouldDouble` starts false, every second digit is doubled and
reduced by 9 when the double exceeds 9, and all values are summed. -/
def luhnLoop : List Char → Bool → Nat → Nat
  | [], _, sum => sum
  | c :: rest, shouldDouble, sum =>
      let d := charDigitVal c
      let d2 := if shouldDouble then (if 2 * d > 9 then 2 * d - 9 else 2 * d) else d
      luhnLoop rest (!shouldDouble) (sum + d2)

/-- `validateCardNumber` from `src/utils.ts` lines 48 to 80: reject falsy
 (empty) input, strip all non-digits, reject when fewer than 13 or more than
19 digits remain, and accept exactly when the Luhn sum is divisible by 10. -/
def validateCardNumber (s : String) : Bool :=
  if s = "" then false
  else
    let digits := s.data.filter Char.isDigit
    if digits.length < 13 || digits.length > 19 then false
    else luhnLoop digits.reverse false 0 % 10 == 0

/-- Luhn sum as the specification words it, consuming the digits
rightmost-first: the first (rightmost) digit of each pair is left alone, the
second is doubled with 9 subtracted when the double exceeds 9. -/
def luhnSpecSum : List Nat → Nat
  | [] => 0
  | [d] => d
  | d1 :: d2 :: rest =>
      d1 + (if 2 * d2 > 9 then 2 * d2 - 9 else 2 * d2) + luhnSpecSum rest

/-- Luhn checksum of a digit list given most significant first, per the
specification: traverse from the rightmost digit and take the sum modulo 10. -/
def luhnChecksum (digitsMSF : List Nat) : Nat :=
  luhnSpecSum digitsMSF.reverse % 10

lemma isDigit_toNat {c : Char} (h : c.isDigit = true) :
    48 ≤ c.toNat ∧ c.toNat ≤ 57 := by
  simp only [Char.isDigit, Bool.and_eq_true, decide_eq_true_eq] at h
  exact h

lemma char_toNat_inj {c d : Char} (h : c.toNat = d.toNat) : c = d := by
  have h1 := Char.ofNat_toNat c
  rw [h, Char.ofNat_toNat] at h1
  exact h1.symm

lemma char_eq_iff_toNat {c d : Char} : c = d ↔ c.toNat = d.toNat := by
  constructor
  · intro h; rw [h]
  · exact char_toNat_inj

/-- The flag-toggling loop equals the accumulator plus the alternating sum of
the digit values. -/
def luhnAux : List Nat → Bool → Nat
  | [], _ => 0
  | d :: rest, shouldDouble =>
      (if shouldDouble then (if 2 * d > 9 then 2 * d - 9 else 2 * d) else d) +
        luhnAux rest (!shouldDouble)

lemma luhnLoop_eq_aux (l : List Char) (b : Bool) (acc : Nat) :
    luhnLoop l b acc = acc + luhnAux (l.map charDigitVal) b := by
  induction l generalizing b acc with
  | nil => simp [luhnLoop, luhnAux]
  | cons c rest ih =>
      simp only [luhnLoop, List.map_cons, luhnAux]
      rw [ih]
      ring

lemma luhnAux_false_eq_spec (l : List Nat) : luhnAux l false = luhnSpecSum l := by
  induction l using luhnSpecSum.induct with
  | case1 => simp [luhnAux, luhnSpecSum]
  | case2 d => simp [luhnAux, luhnSpecSum]
  | case3 d1 d2 rest ih =>
      simp [luhnAux, luhnSpecSum, ih]
      omega

lemma normalizeDigits_data (s : String) :
    (normalizeDigits s).data = s.data.filter Char.isDigit := rfl

/-- Claim C9: digit normalization is idempotent, its result contains only the
characters 0 to 9, and the empty string maps to the empty string. -/
theorem normalizeDigits_idempotent_digits_only :
    (∀ s : String, normalizeDigits (normalizeDigits s) = normalizeDigits s) ∧
    (∀ s : String, ∀ c ∈ (normalizeDigits s).data, '0' ≤ c ∧ c ≤ '9') ∧
    normalizeDigits "" = "" := by
  refine ⟨fun s => ?_, fun s c hc => ?_, rfl⟩
  · show String.mk ((s.data.filter Char.isDigit).filter Char.isDigit) = _
    rw [List.filter_filter]
    simp [normalizeDigits]
  · rw [normalizeDigits_data, List.mem_filter] at hc
    have h := hc.2
    simp only [Char.isDigit, Bool.and_eq_true, decide_eq_true_eq] at h
    exact h

lemma digitVals_normalize (s : String) :
    digitVals (normalizeDigits s) = (s.data.filter Char.isDigit).map charDigitVal := rfl

lemma length_normalize (s : String) :
    (normalizeDigits s).length = (s.data.filter Char.isDigit).length := rfl

/-- Claim C2: the Luhn validator accepts exactly the strings whose digit part
has between 13 and 19 digits and whose Luhn checksum, computed right to left
with every second digit doubled (reduced by 9 above 9), is 0 modulo 10; in
particular it rejects the empty string and anything shorter than 13 digits. -/
theorem validateCardNumber_iff_luhn :
    (∀ s : String, validateCardNumber s = true ↔
      (13 ≤ (normalizeDigits s).length ∧ (normalizeDigits s).length ≤ 19 ∧
        luhnChecksum (digitVals (normalizeDigits s)) = 0)) ∧
    validateCardNumber "" = false ∧
    (∀ s : String, (normalizeDigits s).length < 13 → validateCardNumber s = false) ∧
    validateCardNumber "4242424242424242" = true ∧
    validateCardNumber "4242424242424241" = false ∧
    validateCardNumber "123" = false := by
  have key : ∀ s : String, validateCardNumber s = true ↔
      (13 ≤ (normalizeDigits s).length ∧ (normalizeDigits s).length ≤ 19 ∧
        luhnChecksum (digitVals (normalizeDigits s)) = 0) := by
    intro s
    by_cases hs : s = ""
    · subst hs
      simp [validateCardNumber, normalizeDigits]
    · rw [length_normalize, digitVals_normalize]
      unfold validateCardNumber
      rw [if_neg hs]
      set digits := s.data.filter Char.isDigit with hdig
      by_cases hlo : digits.length < 13
      · rw [if_pos (by simp [hlo])]
        simp only [Bool.false_eq_true, false_iff, not_and]
        intro h
        omega
      · by_cases hhi : digits.length > 19
        · rw [if_pos (by simp [hhi])]
          simp only [Bool.false_eq_true, false_iff, not_and]
          intro h1 h2
          omega
        · rw [if_neg (by simp [hlo, hhi])]
          have hloop : luhnLoop digits.reverse false 0
              = luhnSpecSum ((digits.map charDigitVal).reverse) := by
            rw [luhnLoop_eq_aux, ← List.map_reverse, luhnAux_false_eq_spec]
            omega
          rw [beq_iff_eq, hloop]
          unfold luhnChecksum
          constructor
          · intro h
            exact ⟨by omega, by omega, h⟩
          · intro h
            exact h.2.2
  refine ⟨key, by decide, fun s hlen => ?_, by decide, by decide, by decide⟩
  by_cases hs : s = ""
  · subst hs; decide
  · unfold validateCardNumber
    rw [if_neg hs, if_pos]
    rw [length_normalize] at hlen
    simp [hlen]

/-- Claim C10: the Luhn validator is total over arbitrary strings and
self-normalizing: validating any string gives the same verdict as validating
its digit-normalized form, so formatted input (spaces, hyphens) validates
identically to its digit string. -/
theorem validateCardNumber_self_normalizing :
    ∀ s : String, validateCardNumber s = validateCardNumber (normalizeDigits s) := by
  intro s
  by_cases hs : s = ""
  · subst hs; rfl
  · by_cases hn : normalizeDigits s = ""
    · have hempty : s.data.filter Char.isDigit = [] := by
        have := congrArg String.data hn
        simpa [normalizeDigits] using this
      rw [hn]
      unfold validateCardNumber
      rw [if_neg hs, if_pos rfl, if_pos]
      simp [hempty]
    · unfold validateCardNumber
      rw [if_neg hs, if_neg hn]
      have hdata : (normalizeDigits s).data.filter Char.isDigit
          = s.data.filter Char.isDigit := by
        rw [normalizeDigits_data, List.filter_filter]
        simp
      rw [hdata]

/-- Regex test `/^4/` of `src/utils.ts` `detectCardType`. -/
def visaTest : List Char → Bool
  | c :: _ => c == '4'
  | [] => false

/-- Regex test `/^5[1-5]/`; the character class `[1-5]` is the five digit
characters 1 to 5. -/
def mastercardTest : List Char → Bool
  | c1 :: c2 :: _ =>
      c1 == '5' && (c2 == '1' || c2 == '2' || c2 == '3' || c2 == '4' || c2 == '5')
  | _ => false

/-- Regex test `/^3[47]/`. -/
def amexTest : List Char → Bool
  | c1 :: c2 :: _ => c1 == '3' && (c2 == '4' || c2 == '7')
  | _ => false

/-- Regex test for the third alternative `64[4-9]` of the discover pattern;
the character class `[4-9]` is the six digit characters 4 to 9. -/
def discover64Test : List Char → Bool
  | c1 :: c2 :: c3 :: _ =>
      c1 == '6' && c2 == '4' &&
        (c3 == '4' || c3 == '5' || c3 == '6' || c3 == '7' || c3 == '8' || c3 == '9')
  | _ => false

/-- Regex test `/^(6011|65|64[4-9]|622)/`. -/
def discoverTest (l : List Char) : Bool :=
  ['6', '0', '1', '1'].isPrefixOf l || ['6', '5'].isPrefixOf l ||
    discover64Test l || ['6', '2', '2'].isPrefixOf l

/-- `detectCardType` from `src/utils.ts` lines 87 to 110: reject falsy
 (empty) input, strip non-digits, then test the four patterns in insertion
order (visa, mastercard, amex, discover), returning the first match and
`undefined` (here `none`) when none matches. -/
def detectCardType (s : String) : Option String :=
  if s = "" then none
  else
    let digits := s.data.filter Char.isDigit
    if visaTest digits then some "visa"
    else if mastercardTest digits then some "mastercard"
    else if amexTest digits then some "amex"
    else if discoverTest digits then some "discover"
    else none

/-- Numeric value of the first `k` digits of a digit-value list, when at
least `k` digits are present. -/
def firstVal (k : Nat) (ds : List Nat) : Option Nat :=
  if k ≤ ds.length then some ((ds.take k).foldl (fun a d => 10 * a + d) 0)
  else none

/-- Whether an optional prefix value lies in a closed interval. -/
def inRangeOpt (o : Option Nat) (lo hi : Nat) : Bool :=
  match o with
  | some n => decide (lo ≤ n) && decide (n ≤ hi)
  | none => false

/-- Specification predicate for visa: first digit is 4. -/
def specVisa (ds : List Nat) : Bool := ds.head? == some 4

/-- Specification predicate for mastercard: first two digits form a number in
the interval from 51 to 55. -/
def specMastercard (ds : List Nat) : Bool := inRangeOpt (firstVal 2 ds) 51 55

/-- Specification predicate for amex: first two digits are 34 or 37. -/
def specAmex (ds : List Nat) : Bool :=
  firstVal 2 ds == some 34 || firstVal 2 ds == some 37

/-- Specification predicate for discover: first four digits 6011, or first
two digits 65, or first three digits in the interval from 644 to 649, or
first three digits 622. -/
def specDiscover (ds : List Nat) : Bool :=
  firstVal 4 ds == some 6011 || firstVal 2 ds == some 65 ||
    inRangeOpt (firstVal 3 ds) 644 649 || firstVal 3 ds == some 622

/-- Brand detection as the specification words it: the four numeric prefix
patterns tested in the fixed precedence order, first match wins, absence of
brand when nothing matches. -/
def specDetectBrand (ds : List Nat) : Option String :=
  if specVisa ds then some "visa"
  else if specMastercard ds then some "mastercard"
  else if specAmex ds then some "amex"
  else if specDiscover ds then some "discover"
  else none

lemma toNatLit0 : ('0' : Char).toNat = 48 := rfl

lemma toNatLit1 : ('1' : Char).toNat = 49 := rfl

lemma toNatLit2 : ('2' : Char).toNat = 50 := rfl

lemma toNatLit3 : ('3' : Char).toNat = 51 := rfl

lemma toNatLit4 : ('4' : Char).toNat = 52 := rfl

lemma toNatLit5 : ('5' : Char).toNat = 53 := rfl

lemma toNatLit6 : ('6' : Char).toNat = 54 := rfl

lemma toNatLit7 : ('7' : Char).toNat = 55 := rfl

lemma toNatLit8 : ('8' : Char).toNat = 56 := rfl

lemma toNatLit9 : ('9' : Char).toNat = 57 := rfl

lemma firstVal_short {k : Nat} {ds : List Nat} (h : ds.length < k) :
    firstVal k ds = none := by
  unfold firstVal
  rw [if_neg (by omega)]

lemma firstVal_two (a b : Nat) (m : List Nat) :
    firstVal 2 (a :: b :: m) = some (10 * a + b) := by
  unfold firstVal
  rw [if_pos (by simp)]
  simp [List.take_succ_cons, List.foldl]

lemma firstVal_three (a b c : Nat) (m : List Nat) :
    firstVal 3 (a :: b :: c :: m) = some (100 * a + 10 * b + c) := by
  unfold firstVal
  rw [if_pos (by simp)]
  simp [List.take_succ_cons, List.foldl]
  ring

lemma firstVal_four (a b c d : Nat) (m : List Nat) :
    firstVal 4 (a :: b :: c :: d :: m) = some (1000 * a + 100 * b + 10 * c + d) := by
  unfold firstVal
  rw [if_pos (by simp)]
  simp [List.take_succ_cons, List.foldl]
  ring

lemma visa_bridge (l : List Char) (h : ∀ c ∈ l, c.isDigit = true) :
    visaTest l = specVisa (l.map charDigitVal) := by
  cases l with
  | nil => rfl
  | cons c r =>
      have hc := isDigit_toNat (h c (by simp))
      rw [Bool.eq_iff_iff]
      simp only [visaTest, specVisa, List.map_cons, List.head?_cons, beq_iff_eq,
        Option.some.injEq, charDigitVal, char_eq_iff_toNat, toNatLit4]
      omega

lemma mastercard_bridge (l : List Char) (h : ∀ c ∈ l, c.isDigit = true) :
    mastercardTest l = specMastercard (l.map charDigitVal) := by
  match l with
  | [] => rfl
  | [c] =>
      rw [Bool.eq_iff_iff]
      simp [mastercardTest, specMastercard, firstVal_short, inRangeOpt]
  | c1 :: c2 :: r =>
      have h1 := isDigit_toNat (h c1 (by simp))
      have h2 := isDigit_toNat (h c2 (by simp))
      rw [Bool.eq_iff_iff]
      simp only [mastercardTest, List.map_cons, specMastercard, firstVal_two,
        inRangeOpt, Bool.and_eq_true, Bool.or_eq_true, beq_iff_eq,
        decide_eq_true_eq, charDigitVal, char_eq_iff_toNat, toNatLit1, toNatLit2,
        toNatLit3, toNatLit4, toNatLit5]
      omega

lemma amex_bridge (l : List Char) (h : ∀ c ∈ l, c.isDigit = true) :
    amexTest l = specAmex (l.map charDigitVal) := by
  match l with
  | [] => rfl
  | [c] =>
      rw [Bool.eq_iff_iff]
      simp [amexTest, specAmex, firstVal_short]
  | c1 :: c2 :: r =>
      have h1 := isDigit_toNat (h c1 (by simp))
      have h2 := isDigit_toNat (h c2 (by simp))
      rw [Bool.eq_iff_iff]
      simp only [amexTest, List.map_cons, specAmex, firstVal_two,
        Bool.and_eq_true, Bool.or_eq_true, beq_iff_eq, Option.some.injEq,
        charDigitVal, char_eq_iff_toNat, toNatLit3, toNatLit4, toNatLit7]
      omega

lemma discover_bridge (l : List Char) (h : ∀ c ∈ l, c.isDigit = true) :
    discoverTest l = specDiscover (l.map charDigitVal) := by
  match l with
  | [] => rfl
  | [c1] =>
      have h1 := isDigit_toNat (h c1 (by simp))
      rw [Bool.eq_iff_iff]
      simp [discoverTest, specDiscover, discover64Test, firstVal_short,
        inRangeOpt, List.isPrefixOf]
  | [c1, c2] =>
      have h1 := isDigit_toNat (h c1 (by simp))
      have h2 := isDigit_toNat (h c2 (by simp))
      rw [Bool.eq_iff_iff]
      simp [discoverTest, discover64Test, List.isPrefixOf, specDiscover,
        firstVal, inRangeOpt, charDigitVal, char_eq_iff_toNat, toNatLit0,
        toNatLit1, toNatLit2, toNatLit4, toNatLit5, toNatLit6]
      omega
  | [c1, c2, c3] =>
      have h1 := isDigit_toNat (h c1 (by simp))
      have h2 := isDigit_toNat (h c2 (by simp))
      have h3 := isDigit_toNat (h c3 (by simp))
      rw [Bool.eq_iff_iff]
      simp [discoverTest, discover64Test, List.isPrefixOf, specDiscover,
        firstVal, inRangeOpt, charDigitVal, char_eq_iff_toNat, toNatLit0,
        toNatLit1, toNatLit2, toNatLit4, toNatLit5, toNatLit6, toNatLit7,
        toNatLit8, toNatLit9]
      omega
  | c1 :: c2 :: c3 :: c4 :: r =>
      have h1 := isDigit_toNat (h c1 (by simp))
      have h2 := isDigit_toNat (h c2 (by simp))
      have h3 := isDigit_toNat (h c3 (by simp))
      have h4 := isDigit_toNat (h c4 (by simp))
      rw [Bool.eq_iff_iff]
      simp only [discoverTest, discover64Test, List.isPrefixOf, List.map_cons,
        specDiscover, firstVal_two, firstVal_three, firstVal_four,
        inRangeOpt, Bool.and_eq_true, Bool.or_eq_true, beq_iff_eq,
        Option.some.injEq, Bool.and_true, Bool.true_and,
        decide_eq_true_eq, charDigitVal, char_eq_iff_toNat, toNatLit0, toNatLit1,
        toNatLit2, toNatLit4, toNatLit5, toNatLit6, toNatLit7, toNatLit8, toNatLit9]
      omega

/-- Claim C6: brand detection equals the specification's numeric prefix
patterns tested in the fixed precedence order visa, mastercard, amex,
discover, first match wins; it returns the absence of a brand for empty or
non-digit input; and it reproduces the specification's examples. As a Lean
function it is pure and deterministic by construction. -/
theorem detectCardType_matches_spec :
    (∀ s : String, detectCardType s = specDetectBrand (digitVals (normalizeDigits s))) ∧
    (∀ s : String, normalizeDigits s = "" → detectCardType s = none) ∧
    detectCardType "4242424242424242" = some "visa" ∧
    detectCardType "5105105105105100" = some "mastercard" ∧
    detectCardType "378282246310005" = some "amex" ∧
    detectCardType "6011111111111117" = some "discover" ∧
    detectCardType "1111" = none := by
  refine ⟨fun s => ?_, fun s hn => ?_, by decide, by decide, by decide, by decide,
    by decide⟩
  · by_cases hs : s = ""
    · subst hs; rfl
    · have hd : ∀ c ∈ s.data.filter Char.isDigit, c.isDigit = true :=
        fun c hc => (List.mem_filter.mp hc).2
      rw [digitVals_normalize]
      simp only [detectCardType, if_neg hs]
      rw [visa_bridge _ hd, mastercard_bridge _ hd, amex_bridge _ hd,
        discover_bridge _ hd]
      rfl
  · by_cases hs : s = ""
    · subst hs; rfl
    · have hempty : s.data.filter Char.isDigit = [] := by
        have := congrArg String.data hn
        simpa [normalizeDigits] using this
      simp [detectCardType, if_neg hs, hempty, visaTest, mastercardTest,
        amexTest, discoverTest, discover64Test, List.isPrefixOf]

/-- The `ErrorType` enumeration of `src/errors.ts` (the one used by
`VizionGatewayClient`). -/
inductive ErrorType
  | AUTHENTICATION
  | VALIDATION
  | API
  | NETWORK
  | PAYMENT_PROCESSING
  | REFUND_PROCESSING
  | UNKNOWN
deriving DecidableEq

/-- String code of each `ErrorType` member, as declared in `src/errors.ts`. -/
def ErrorType.code : ErrorType → String
  | .AUTHENTICATION => "authentication_error"
  | .VALIDATION => "validation_error"
  | .API => "api_error"
  | .NETWORK => "network_error"
  | .PAYMENT_PROCESSING => "payment_processing_error"
  | .REFUND_PROCESSING => "refund_processing_error"
  | .UNKNOWN => "unknown_error"

/-- The opaque `details` payload attached to a `VizionGatewayError`: either
the `errors` field of a response body, or the original exception value that a
catch block wrapped. -/
inductive ErrDetails
  | bodyErrors (payload : String)
  | exceptionVal (message : Option String)
deriving DecidableEq

/-- The `VizionGatewayError` carrier of `src/errors.ts`: message, type,
optional details, optional HTTP status code. -/
structure VizionGatewayError where
  message : String
  etype : ErrorType
  details : Option ErrDetails
  statusCode : Option Nat
deriving DecidableEq

/-- A raw transport outcome as seen by the axios response interceptor of
`src/client.ts`: an HTTP error response with a status and a body (whose
`message` and `errors` fields may be absent), a connectivity failure where a
request was made but no response arrived, or a setup error with neither. -/
inductive AxiosOutcome
  | httpResponse (status : Nat) (bodyMessage : Option String) (bodyErrors : Option String)
  | requestNoResponse
  | setupFailure (message : Option String)
deriving DecidableEq

/-- The response interceptor of `src/client.ts` lines 43 to 83: status 401
maps to a fixed authentication failure; status 400 maps to a validation error
carrying the body message (or a generic one) and the body `errors` field; any
other response maps to an API error with the same body handling; a request
with no response maps to a fixed network error; anything else maps to an
unknown error carrying the exception message when available. -/
def classify : AxiosOutcome → VizionGatewayError
  | .httpResponse status m e =>
      if status = 401 then
        ⟨"Authentication failed. Check your API key and merchant ID.",
          .AUTHENTICATION, none, none⟩
      else if status = 400 then
        ⟨jsOrString m "Invalid request parameters", .VALIDATION,
          e.map ErrDetails.bodyErrors, none⟩
      else
        ⟨jsOrString m "An error occurred while processing your request", .API,
          e.map ErrDetails.bodyErrors, none⟩
  | .requestNoResponse =>
      ⟨"Network error. Please check your connection.", .NETWORK, none, none⟩
  | .setupFailure m =>
      ⟨jsOrString m "An unexpected error occurred", .UNKNOWN, none, none⟩

/-- The four public operations of `VizionGatewayClient` in `src/client.ts`. -/
inductive ClientOp
  | processCardPayment
  | getTransaction
  | listTransactions
  | refundTransaction
deriving DecidableEq

/-- The error type each operation's catch block wraps a non-typed exception
with (`src/client.ts` lines 113 to 122, 134 to 143, 168 to 177, 202 to 211):
payment processing for payments, API for transaction retrieval and listing,
refund processing for refunds. -/
def opWrapType : ClientOp → ErrorType
  | .processCardPayment => .PAYMENT_PROCESSING
  | .getTransaction => .API
  | .listTransactions => .API
  | .refundTransaction => .REFUND_PROCESSING

/-- The fixed message each operation's catch block uses when wrapping. -/
def opWrapMessage : ClientOp → String
  | .processCardPayment => "Failed to process card payment"
  | .getTransaction => "Failed to retrieve transaction"
  | .listTransactions => "Failed to list transactions"
  | .refundTransaction => "Failed to process refund"

/-- An error value caught by an operation's catch block: either an
already-typed `VizionGatewayError` (for example one produced by the response
interceptor) or any other exception value. -/
inductive CaughtError
  | typed (e : VizionGatewayError)
  | untyped (message : Option String)
deriving DecidableEq

/-- The catch block shared by all four `VizionGatewayClient` operations:
`if (error instanceof VizionGatewayError) throw error;` re-throws a typed
error unchanged, otherwise the exception is wrapped with the operation's
fixed message and type, with the original exception as details. -/
def opCatch (op : ClientOp) : CaughtError → VizionGatewayError
  | .typed e => e
  | .untyped m =>
      ⟨opWrapMessage op, opWrapType op, some (ErrDetails.exceptionVal m), none⟩

/-- A response body as read by the `PaymentService` interceptor of
`src/services/payment-service.ts`: its `message` and `code` fields may each
be absent. -/
structure PsBody where
  message : Option String
  code : Option String
deriving DecidableEq

/-- A raw transport outcome as seen by the `PaymentService` interceptor: an
HTTP error response whose `data` may be absent or falsy, or a failure with no
response at all. -/
inductive PsOutcome
  | httpResponse (status : Nat) (body : Option PsBody)
  | noResponse
deriving DecidableEq

/-- The `VizionGatewayError` carrier of `src/utils/errors.ts`: message, a
plain string `code`, and a numeric status code defaulting to 500. -/
structure PsError where
  message : String
  code : String
  statusCode : Nat
deriving DecidableEq

/-- The `PaymentService` response interceptor of
`src/services/payment-service.ts` lines 32 to 42:
`errorResponse = error.response?.data || { message: 'Unknown error occurred' }`
then a `VizionGatewayError` with `errorResponse.message`,
`errorResponse.code || 'unknown_error'`, and
`error.response?.status || 500`. A JavaScript `Error` constructed from an
absent message carries the empty string. -/
def psClassify : PsOutcome → PsError
  | .httpResponse status (some b) =>
      ⟨b.message.getD "", jsOrString b.code "unknown_error",
        if status = 0 then 500 else status⟩
  | .httpResponse status none =>
      ⟨"Unknown error occurred", "unknown_error", if status = 0 then 500 else status⟩
  | .noResponse => ⟨"Unknown error occurred", "unknown_error", 500⟩

/-- The four public operations of `PaymentService`. -/
inductive PsOp
  | processCardPayment
  | getTransaction
  | listTransactions
  | processRefund
deriving DecidableEq

/-- The error code each `PaymentService` catch block wraps a non-typed
exception with: payment processing for payments, transaction retrieval for
both retrieval and listing, refund processing for refunds. -/
def psWrapCode : PsOp → String
  | .processCardPayment => "payment_processing_error"
  | .getTransaction => "transaction_retrieval_error"
  | .listTransactions => "transaction_retrieval_error"
  | .processRefund => "refund_processing_error"

/-- The fixed message each `PaymentService` catch block uses when wrapping. -/
def psWrapMessage : PsOp → String
  | .processCardPayment => "Failed to process card payment"
  | .getTransaction => "Failed to retrieve transaction"
  | .listTransactions => "Failed to list transactions"
  | .processRefund => "Failed to process refund"

/-- An error value caught by a `PaymentService` catch block. -/
inductive PsCaught
  | typed (e : PsError)
  | untyped
deriving DecidableEq

/-- The catch block shared by the four `PaymentService` operations
(`src/services/payment-service.ts` lines 54 to 63 and parallels): a typed
error is re-thrown unchanged, anything else is wrapped with the operation's
fixed message, code and status 500. -/
def psCatch (op : PsOp) : PsCaught → PsError
  | .typed e => e
  | .untyped => ⟨psWrapMessage op, psWrapCode op, 500⟩

/-- The closed error-kind set of the specification, as string codes: the
nine members CONFIGURATION, AUTHENTICATION, VALIDATION, API, NETWORK,
PAYMENT_PROCESSING, TRANSACTION_RETRIEVAL, REFUND_PROCESSING, UNKNOWN in the
snake-case spelling both source enumerations use. -/
def specClosedCodes : List String :=
  ["configuration_error", "authentication_error", "validation_error",
    "api_error", "network_error", "payment_processing_error",
    "transaction_retrieval_error", "refund_processing_error", "unknown_error"]

/-- The server-supplied error code a `PaymentService` outcome carries, when
its body has a truthy `code` field. -/
def psRawCode : PsOutcome → Option String
  | .httpResponse _ (some b) =>
      match b.code with
      | some c => if c = "" then none else some c
      | none => none
  | _ => none

/-- Claim C1: the transport error classifier maps a 401 response to a fixed
authentication failure regardless of body; a 400 response to a validation
error carrying the body message when present (non-empty) and a generic
message otherwise, with details from the body errors field; any other
response to an API error with the same body handling; a connectivity failure
with no response to a fixed network error; and any other exception to an
unknown error carrying the exception's own message when available. -/
theorem classify_mapping :
    (∀ (m e : Option String),
      (classify (.httpResponse 401 m e)).etype = ErrorType.AUTHENTICATION ∧
      (classify (.httpResponse 401 m e)).message =
        "Authentication failed. Check your API key and merchant ID." ∧
      (classify (.httpResponse 401 m e)).details = none) ∧
    (∀ (m e : Option String),
      (classify (.httpResponse 400 m e)).etype = ErrorType.VALIDATION ∧
      (∀ str, m = some str → str ≠ "" →
        (classify (.httpResponse 400 m e)).message = str) ∧
      (m = none →
        (classify (.httpResponse 400 m e)).message = "Invalid request parameters") ∧
      (classify (.httpResponse 400 m e)).details = e.map ErrDetails.bodyErrors) ∧
    (∀ (s : Nat) (m e : Option String), s ≠ 401 → s ≠ 400 →
      (classify (.httpResponse s m e)).etype = ErrorType.API ∧
      (∀ str, m = some str → str ≠ "" →
        (classify (.httpResponse s m e)).message = str) ∧
      (m = none → (classify (.httpResponse s m e)).message =
        "An error occurred while processing your request") ∧
      (classify (.httpResponse s m e)).details = e.map ErrDetails.bodyErrors) ∧
    (classify .requestNoResponse =
      ⟨"Network error. Please check your connection.", ErrorType.NETWORK,
        none, none⟩) ∧
    (∀ m : Option String,
      (classify (.setupFailure m)).etype = ErrorType.UNKNOWN ∧
      (∀ str, m = some str → str ≠ "" → (classify (.setupFailure m)).message = str) ∧
      (m = none →
        (classify (.setupFailure m)).message = "An unexpected error occurred")) := by
  refine ⟨fun m e => ⟨rfl, rfl, rfl⟩, fun m e => ⟨rfl, ?_, ?_, rfl⟩,
    fun s m e h401 h400 => ?_, rfl, fun m => ⟨rfl, ?_, ?_⟩⟩
  · intro str hm hne
    subst hm
    simp [classify, jsOrString, hne]
  · intro hm
    subst hm
    rfl
  · refine ⟨?_, ?_, ?_, ?_⟩
    · simp [classify, h401, h400]
    · intro str hm hne
      subst hm
      simp [classify, h401, h400, jsOrString, hne]
    · intro hm
      subst hm
      simp [classify, h401, h400, jsOrString]
    · simp [classify, h401, h400]
  · intro str hm hne
    subst hm
    simp [classify, jsOrString, hne]
  · intro hm
    subst hm
    rfl

/-- Witness for claim C1 at a concrete outcome: a 500 response with body
message boom classifies as an API error with message boom. -/
theorem classify_mapping_witness :
    (classify (.httpResponse 500 (some "boom") none)).etype = ErrorType.API ∧
    (classify (.httpResponse 500 (some "boom") none)).message = "boom" := by
  have h := classify_mapping.2.2.1 500 (some "boom") none
    (by decide) (by decide)
  exact ⟨h.1, h.2.1 "boom" rfl (by decide)⟩

/-- Counterexample to claim C3: a transport failure the generic classifier
labels API (a 500 response with body message boom) surfaces from the
process-payment operation still labelled API, because the interceptor's
already-typed error is re-thrown unchanged; it is never re-labelled
PAYMENT_PROCESSING. -/
theorem opRelabel_counterexample :
    (classify (.httpResponse 500 (some "boom") none)).etype = ErrorType.API ∧
    opCatch ClientOp.processCardPayment
        (CaughtError.typed (classify (.httpResponse 500 (some "boom") none)))
      = classify (.httpResponse 500 (some "boom") none) ∧
    (opCatch ClientOp.processCardPayment
        (CaughtError.typed (classify (.httpResponse 500 (some "boom") none)))).etype
      ≠ ErrorType.PAYMENT_PROCESSING := by
  refine ⟨rfl, rfl, ?_⟩
  decide

/-- Claim C3 as amended: every error produced by the transport classifier
(API and UNKNOWN included) passes through every operation unchanged, because
it is already a typed error; the operation-scoped re-labelling applies only
to exceptions that are not typed errors, and it replaces the message with the
operation's fixed failure message (kinds PAYMENT_PROCESSING for payment, API
for transaction retrieval and listing, REFUND_PROCESSING for refund in the
client; the service path uses its own codes, with transaction retrieval for
both retrieval and listing). -/
theorem opCatch_passthrough_and_wrap :
    (∀ (op : ClientOp) (o : AxiosOutcome),
      opCatch op (CaughtError.typed (classify o)) = classify o) ∧
    (∀ (op : ClientOp) (m : Option String),
      opCatch op (CaughtError.untyped m) =
        ⟨opWrapMessage op, opWrapType op, some (ErrDetails.exceptionVal m), none⟩) ∧
    (∀ (op : PsOp) (o : PsOutcome),
      psCatch op (PsCaught.typed (psClassify o)) = psClassify o) ∧
    (∀ op : PsOp, psCatch op PsCaught.untyped =
      ⟨psWrapMessage op, psWrapCode op, 500⟩) :=
  ⟨fun _ _ => rfl, fun _ _ => rfl, fun _ _ => rfl, fun _ => rfl⟩

/-- Claim C4: an already-typed error caught by any higher-level operation,
in either client, is re-thrown unchanged with the same kind, message, details
and status code, never wrapped a second time. -/
theorem typedError_rethrown_unchanged :
    (∀ (op : ClientOp) (e : VizionGatewayError),
      opCatch op (CaughtError.typed e) = e) ∧
    (∀ (op : PsOp) (e : PsError), psCatch op (PsCaught.typed e) = e) :=
  ⟨fun _ _ => rfl, fun _ _ => rfl⟩

/-- Counterexample to claim C5: a 500 response whose body carries the
free-form code banana surfaces to the caller of a PaymentService operation
with kind banana, which lies outside the closed error-kind enumeration. -/
theorem errorKind_closed_counterexample :
    (psCatch PsOp.processCardPayment (PsCaught.typed
        (psClassify (PsOutcome.httpResponse 500
          (some ⟨some "x", some "banana"⟩))))).code = "banana" ∧
    "banana" ∉ specClosedCodes := by
  refine ⟨rfl, ?_⟩
  decide

lemma etype_code_mem (t : ErrorType) : t.code ∈ specClosedCodes := by
  cases t <;> decide

/-- Claim C5 as amended: every error from the VizionGatewayClient classifier
carries a kind inside the closed enumeration; an error from the
PaymentService classifier carries the fixed code unknown_error (inside the
set) whenever the response body has no truthy code field, but carries the
server body's code field verbatim whenever one is present, which may lie
outside the set. -/
theorem errorKind_closed_amended :
    (∀ o : AxiosOutcome, (classify o).etype.code ∈ specClosedCodes) ∧
    (∀ o : PsOutcome, psRawCode o = none → (psClassify o).code = "unknown_error") ∧
    "unknown_error" ∈ specClosedCodes ∧
    (∀ (o : PsOutcome) (c : String), psRawCode o = some c →
      (psClassify o).code = c) := by
  refine ⟨fun o => etype_code_mem _, fun o h => ?_, by decide, fun o c h => ?_⟩
  · match o with
    | .noResponse => rfl
    | .httpResponse s none => rfl
    | .httpResponse s (some b) =>
        match hb : b.code with
        | none => simp [psClassify, jsOrString, hb]
        | some c =>
            simp only [psRawCode, hb] at h
            by_cases hc : c = ""
            · simp [psClassify, jsOrString, hb, hc]
            · rw [if_neg hc] at h
              exact absurd h (by simp)
  · match o with
    | .noResponse => simp [psRawCode] at h
    | .httpResponse s none => simp [psRawCode] at h
    | .httpResponse s (some b) =>
        match hb : b.code with
        | none => simp [psRawCode, hb] at h
        | some c0 =>
            simp only [psRawCode, hb] at h
            by_cases hc : c0 = ""
            · rw [if_pos hc] at h
              exact absurd h (by simp)
            · rw [if_neg hc] at h
              have hcc : c0 = c := by
                simpa using h
              subst hcc
              simp [psClassify, jsOrString, hb, hc]

/-- Witness for the amended claim C5 at concrete outcomes: a response with
no body code surfaces the fixed code unknown_error, and a body code
api_error is passed through verbatim. -/
theorem errorKind_closed_amended_witness :
    psRawCode PsOutcome.noResponse = none ∧
    (psClassify PsOutcome.noResponse).code = "unknown_error" ∧
    psRawCode (PsOutcome.httpResponse 500 (some ⟨none, some "api_error"⟩))
      = some "api_error" ∧
    (psClassify (PsOutcome.httpResponse 500 (some ⟨none, some "api_error"⟩))).code
      = "api_error" :=
  ⟨rfl, errorKind_closed_amended.2.1 PsOutcome.noResponse rfl, rfl,
    errorKind_closed_amended.2.2.2
      (PsOutcome.httpResponse 500 (some ⟨none, some "api_error"⟩)) "api_error" rfl⟩

/-- Splitting a character list at every slash, modelling JavaScript
`expiry.split('/')`. -/
def splitOnSlash : List Char → List (List Char)
  | [] => [[]]
  | c :: r =>
      match splitOnSlash r with
      | [] => [[]]
      | p :: ps => if c == '/' then [] :: p :: ps else (c :: p) :: ps

/-- JavaScript `String.prototype.trim`: whitespace removed from both ends. -/
def jsTrim (s : String) : String :=
  String.mk (((s.data.dropWhile Char.isWhitespace).reverse.dropWhile
    Char.isWhitespace).reverse)

/-- `parseExpiry` of the first form class
(`src/components/payment-form.ts` lines 398 to 404): split on the slash,
trim each part, month is the first part and year the second, empty when
absent. -/
def parseExpiry (expiry : String) : String × String :=
  let parts := (splitOnSlash expiry.data).map (fun l => jsTrim (String.mk l))
  (parts.getD 0 "", parts.getD 1 "")

/-- The card-related field values read by the first form class on submit. -/
structure FormValues where
  cardNumber : String
  expiry : String
  cvc : String
  holderName : String
deriving DecidableEq

/-- The transaction configuration of the first form class. -/
structure FormConfig where
  amount : Nat
  currency : String
  sourceId : String
  destinationId : String
  orderId : String
  description : Option String
deriving DecidableEq

/-- The card payload of the `PaymentRequest` assembled by the first form
class. -/
structure CardFields where
  number : String
  expiryMonth : String
  expiryYear : String
  cvc : String
  holderName : String
deriving DecidableEq

/-- The `PaymentRequest` assembled by the first form class on submit. -/
structure PaymentRequest1 where
  amount : Nat
  currency : String
  sourceId : String
  destinationId : String
  orderId : String
  description : Option String
  card : CardFields
deriving DecidableEq

/-- Outcome of a submit of the first form class: the request it assembled, if
any, and whether the transport was invoked. -/
structure SubmitOutcome where
  request : Option PaymentRequest1
  transportCalled : Bool
deriving DecidableEq

/-- `handleSubmit` of the first form class
(`src/components/payment-form.ts` lines 322 to 391): the field values are
read, the card number has its spaces stripped, the expiry is parsed, the
`PaymentRequest` is assembled, and the payment service is invoked. No
validation of any kind occurs on this path. -/
def handleSubmit1 (cfg : FormConfig) (v : FormValues) : SubmitOutcome :=
  let cardNumber := jsStripSpaces v.cardNumber
  let p := parseExpiry v.expiry
  ⟨some ⟨cfg.amount, cfg.currency, cfg.sourceId, cfg.destinationId, cfg.orderId,
    cfg.description, ⟨cardNumber, p.1, p.2, v.cvc, v.holderName⟩⟩, true⟩

/-- The field values of the second form class. -/
structure FormValues2 where
  cardholderName : String
  cardNumber : String
  expiryMonth : String
  expiryYear : String
  cvv : String
deriving DecidableEq

/-- The custom-validity string the blur validator of the second form class
(`src/components/payment-form.ts` lines 679 to 688) leaves on the card-number
input: the value with spaces stripped is checked with the Luhn validator, and
a non-empty failing value marks the field invalid. -/
def cardBlurValidity (value : String) : String :=
  let v := jsStripSpaces value
  if v != "" && !validateCardNumber v then "Invalid card number" else ""

/-- The state of the second form class relevant to submission: the field
values, the custom validity currently set on the card-number input, and the
`isSubmitting` flag. -/
structure Form2State where
  values : FormValues2
  cardCustomValidity : String
  isSubmitting : Bool
deriving DecidableEq

/-- HTML pattern `[0-9\s]{13,19}` of the card-number input: only digits and
whitespace, between 13 and 19 characters. -/
def patternCardNumber (s : String) : Bool :=
  s.data.all (fun c => c.isDigit || c.isWhitespace) &&
    decide (13 ≤ s.length) && decide (s.length ≤ 19)

/-- HTML pattern `[0-9]{1,2}` of the expiry-month input. -/
def patternMonth (s : String) : Bool :=
  s.data.all Char.isDigit && decide (1 ≤ s.length) && decide (s.length ≤ 2)

/-- HTML pattern `[0-9]{4}` of the expiry-year input. -/
def patternYear (s : String) : Bool :=
  s.data.all Char.isDigit && decide (s.length = 4)

/-- HTML pattern `[0-9]{3,4}` of the CVV input. -/
def patternCvv (s : String) : Bool :=
  s.data.all Char.isDigit && decide (3 ≤ s.length) && decide (s.length ≤ 4)

/-- HTML constraint validation of the second form
(`this.formElement.checkValidity()`): every required field is non-empty, every
patterned field matches its pattern, and no input carries a non-empty custom
validity message. Only the card-number input ever receives one. -/
def form2Valid (st : Form2State) : Bool :=
  st.cardCustomValidity == "" &&
    st.values.cardholderName != "" &&
    st.values.cardNumber != "" && patternCardNumber st.values.cardNumber &&
    st.values.expiryMonth != "" && patternMonth st.values.expiryMonth &&
    st.values.expiryYear != "" && patternYear st.values.expiryYear &&
    st.values.cvv != "" && patternCvv st.values.cvv

/-- The card details assembled by the second form class on a successful
submit; the expiry fields go through `parseInt`. -/
structure CardDetails2 where
  cardNumber : String
  expiryMonth : Option Nat
  expiryYear : Option Nat
  cvv : String
  cardholderName : String
deriving DecidableEq

/-- Result of one invocation of the second form's submit handler. -/
inductive Submit2Result
  | ignoredInFlight
  | blockedInvalid
  | submitted (details : CardDetails2)
deriving DecidableEq

/-- `handleSubmit` of the second form class
(`src/components/payment-form.ts` lines 693 to 758): a submit while one is in
flight returns immediately; an invalid form reports validity and returns
before any request is built; otherwise the card details are assembled and the
client is invoked. -/
def handleSubmit2 (st : Form2State) : Submit2Result :=
  if st.isSubmitting then .ignoredInFlight
  else if !form2Valid st then .blockedInvalid
  else
    .submitted ⟨jsStripSpaces st.values.cardNumber,
      st.values.expiryMonth.toNat?, st.values.expiryYear.toNat?,
      st.values.cvv, st.values.cardholderName⟩

/-- Counterexample to claim C7: the first form class submits a card number
the Luhn validator rejects; the request is assembled and the transport is
invoked anyway, because its submit handler performs no validation. -/
theorem formSubmit_validation_counterexample :
    validateCardNumber "4242 4242 4242 4241" = false ∧
    (handleSubmit1 ⟨4999, "XCD", "src_1", "dst_1", "order_1", none⟩
        ⟨"4242 4242 4242 4241", "12 / 30", "123", "Jane Doe"⟩).transportCalled
      = true ∧
    (handleSubmit1 ⟨4999, "XCD", "src_1", "dst_1", "order_1", none⟩
        ⟨"4242 4242 4242 4241", "12 / 30", "123", "Jane Doe"⟩).request
      = some ⟨4999, "XCD", "src_1", "dst_1", "order_1", none,
          ⟨"4242424242424241", "12", "30", "123", "Jane Doe"⟩⟩ := by
  refine ⟨by decide, rfl, by decide⟩

/-- Claim C7 as amended: in the second form class, a card number whose
space-stripped value is non-empty and rejected by the Luhn validator leaves a
non-empty custom validity on the field, so a submit with that validity in
place is blocked before any card details are assembled and before any
transport call; the first form class performs no such validation and submits
unconditionally. -/
theorem luhnReject_blocks_submission :
    ∀ v : FormValues2, jsStripSpaces v.cardNumber ≠ "" →
      validateCardNumber (jsStripSpaces v.cardNumber) = false →
      handleSubmit2 ⟨v, cardBlurValidity v.cardNumber, false⟩
        = Submit2Result.blockedInvalid := by
  intro v h1 h2
  have hval : cardBlurValidity v.cardNumber = "Invalid card number" := by
    unfold cardBlurValidity
    rw [if_pos]
    simp [h1, h2]
  unfold handleSubmit2
  rw [if_neg (by simp), if_pos]
  simp [form2Valid, hval]

/-- Witness for the amended claim C7 at a concrete form state: a formatted
card number failing the Luhn check blocks submission. -/
theorem luhnReject_blocks_submission_witness :
    jsStripSpaces "4242 4242 4242 4241" ≠ "" ∧
    validateCardNumber (jsStripSpaces "4242 4242 4242 4241") = false ∧
    handleSubmit2 ⟨⟨"Jane Doe", "4242 4242 4242 4241", "12", "2030", "123"⟩,
        cardBlurValidity "4242 4242 4242 4241", false⟩
      = Submit2Result.blockedInvalid :=
  ⟨by decide, by decide,
    luhnReject_blocks_submission
      ⟨"Jane Doe", "4242 4242 4242 4241", "12", "2030", "123"⟩
      (by decide) (by decide)⟩

/-- The asynchronous submission cycle of the second form class: the form
state plus a count of outbound transport calls. -/
structure FlowState where
  form : Form2State
  outboundCalls : Nat
deriving DecidableEq

/-- Events of the submission cycle: a submit attempt, and the completion of
the outstanding request with success or failure. -/
inductive FormEvent
  | submitEvent
  | completeEvent (success : Bool)
deriving DecidableEq

/-- One step of the submission cycle. A submit runs `handleSubmit2`: only the
submitted outcome sets `isSubmitting` and issues an outbound call
(`src/components/payment-form.ts` lines 696 to 733). A completion runs the
`finally` block, which clears `isSubmitting` unconditionally for success and
failure alike (lines 750 to 757). -/
def flowStep (st : FlowState) : FormEvent → FlowState
  | .submitEvent =>
      match handleSubmit2 st.form with
      | .submitted _ =>
          ⟨⟨st.form.values, st.form.cardCustomValidity, true⟩, st.outboundCalls + 1⟩
      | _ => st
  | .completeEvent _ =>
      ⟨⟨st.form.values, st.form.cardCustomValidity, false⟩, st.outboundCalls⟩

/-- Running the submission cycle over a sequence of events. -/
def flowRun (st : FlowState) (evs : List FormEvent) : FlowState :=
  evs.foldl flowStep st

/-- The asynchronous submission cycle of the first form class
(`src/components/payment-form.ts` lines 322 to 391): only the disabled state
of the submit button and a count of outbound transport calls, since this
class keeps no `isSubmitting` flag. -/
structure Flow1State where
  buttonDisabled : Bool
  outboundCalls : Nat
deriving DecidableEq

/-- One step of the first form class's submission cycle. A submit event
reaching its handler runs `handleSubmit1` unconditionally: the handler has no
reentrancy guard, so it disables the button and issues an outbound call every
time (lines 327 to 360); a completion runs the `finally` block, which only
re-enables the button (lines 386 to 390). -/
def flow1Step (cfg : FormConfig) (v : FormValues) (st : Flow1State) :
    FormEvent → Flow1State
  | .submitEvent =>
      ⟨true,
        if (handleSubmit1 cfg v).transportCalled then st.outboundCalls + 1
        else st.outboundCalls⟩
  | .completeEvent _ => ⟨false, st.outboundCalls⟩

/-- Running the first form class's submission cycle over a sequence of
events. -/
def flow1Run (cfg : FormConfig) (v : FormValues) (st : Flow1State)
    (evs : List FormEvent) : Flow1State :=
  evs.foldl (flow1Step cfg v) st

/-- Counterexample to claim C8: the first form class's submit handler has no
reentrancy flag, so two submit events with no intervening completion - the
second therefore issued while the first submission is outstanding - produce
two outbound transport calls instead of one. -/
theorem submit_reentrancy_counterexample :
    (flow1Run ⟨4999, "XCD", "src_1", "dst_1", "order_1", none⟩
        ⟨"4242424242424242", "12 / 30", "123", "Jane Doe"⟩
        ⟨false, 0⟩ [FormEvent.submitEvent]).outboundCalls = 1 ∧
    (flow1Run ⟨4999, "XCD", "src_1", "dst_1", "order_1", none⟩
        ⟨"4242424242424242", "12 / 30", "123", "Jane Doe"⟩
        ⟨false, 0⟩ [FormEvent.submitEvent]).buttonDisabled = true ∧
    (flow1Run ⟨4999, "XCD", "src_1", "dst_1", "order_1", none⟩
        ⟨"4242424242424242", "12 / 30", "123", "Jane Doe"⟩
        ⟨false, 0⟩ [FormEvent.submitEvent, FormEvent.submitEvent]).outboundCalls
      = 2 :=
  ⟨rfl, rfl, rfl⟩

/-- Claim C8 as amended: in the second form class, submission is guarded by
the `isSubmitting` reentrancy flag - a submit while a submission is
outstanding is ignored entirely (state unchanged, no outbound call),
completion clears the in-flight flag whether it succeeded or failed, two
consecutive submits produce at most one outbound call, and after submit,
submit, complete the flag is clear. The first form class's submit handler has
no reentrancy flag: every submit event that reaches it issues an outbound
transport call, whatever the prior state; it relies only on disabling the
submit button while the request is outstanding. -/
theorem submit_reentrancy_guard :
    (∀ st : FlowState, st.form.isSubmitting = true →
      flowStep st FormEvent.submitEvent = st) ∧
    (∀ (st : FlowState) (b : Bool),
      (flowStep st (FormEvent.completeEvent b)).form.isSubmitting = false) ∧
    (∀ st : FlowState,
      (flowRun st [FormEvent.submitEvent, FormEvent.submitEvent]).outboundCalls
        ≤ st.outboundCalls + 1) ∧
    (∀ (st : FlowState) (b : Bool),
      (flowRun st [FormEvent.submitEvent, FormEvent.submitEvent,
        FormEvent.completeEvent b]).form.isSubmitting = false) ∧
    (∀ (cfg : FormConfig) (v : FormValues) (st : Flow1State),
      (flow1Step cfg v st FormEvent.submitEvent).outboundCalls
        = st.outboundCalls + 1) := by
  have hguard : ∀ st : FlowState, st.form.isSubmitting = true →
      flowStep st FormEvent.submitEvent = st := by
    intro st h
    simp [flowStep, handleSubmit2, h]
  refine ⟨hguard, fun st b => rfl, fun st => ?_, fun st b => rfl,
    fun cfg v st => rfl⟩
  show (flowStep (flowStep st FormEvent.submitEvent)
    FormEvent.submitEvent).outboundCalls ≤ st.outboundCalls + 1
  cases h : handleSubmit2 st.form with
  | submitted d =>
      have h1 : flowStep st FormEvent.submitEvent
          = ⟨⟨st.form.values, st.form.cardCustomValidity, true⟩,
              st.outboundCalls + 1⟩ := by
        simp [flowStep, h]
      rw [h1, hguard _ rfl]
  | ignoredInFlight =>
      have h1 : flowStep st FormEvent.submitEvent = st := by
        simp [flowStep, h]
      rw [h1, h1]
      omega
  | blockedInvalid =>
      have h1 : flowStep st FormEvent.submitEvent = st := by
        simp [flowStep, h]
      rw [h1, h1]
      omega

/-- Witness for the amended claim C8 at a concrete in-flight state of the
second form class: a second submit while one is outstanding changes
nothing. -/
theorem submit_reentrancy_guard_witness :
    flowStep ⟨⟨⟨"Jane Doe", "4242424242424242", "12", "2030", "123"⟩, "", true⟩, 1⟩
        FormEvent.submitEvent
      = ⟨⟨⟨"Jane Doe", "4242424242424242", "12", "2030", "123"⟩, "", true⟩, 1⟩ :=
  submit_reentrancy_guard.1
    ⟨⟨⟨"Jane Doe", "4242424242424242", "12", "2030", "123"⟩, "", true⟩, 1⟩ rfl

/-- Witness for claim C2 at concrete inputs: 123 is rejected as too short,
and 4242424242424242 satisfies the specification side of the equivalence. -/
theorem validateCardNumber_iff_luhn_witness :
    validateCardNumber "123" = false ∧
    (13 ≤ (normalizeDigits "4242424242424242").length ∧
      (normalizeDigits "4242424242424242").length ≤ 19 ∧
      luhnChecksum (digitVals (normalizeDigits "4242424242424242")) = 0) :=
  ⟨validateCardNumber_iff_luhn.2.2.1 "123" (by decide),
    (validateCardNumber_iff_luhn.1 "4242424242424242").mp (by decide)⟩

/-- Witness for claim C6 at a concrete input: a string with no digits
normalizes to the empty string and detects no brand. -/
theorem detectCardType_matches_spec_witness :
    normalizeDigits "abc" = "" ∧ detectCardType "abc" = none :=
  ⟨by decide, detectCardType_matches_spec.2.1 "abc" (by decide)⟩

/-- Witness for claim C9 at a concrete input: the digit 1 survives
normalization of a1b2 and is one of the characters 0 to 9. -/
theorem normalizeDigits_idempotent_digits_only_witness :
    '1' ∈ (normalizeDigits "a1b2").data ∧ ('0' ≤ '1' ∧ '1' ≤ '9') :=
  ⟨by decide, normalizeDigits_idempotent_digits_only.2.1 "a1b2" '1' (by decide)⟩
